import Mathlib

/-!
Verification development for the qwenbot inference server
(src/backend/app.py).  The definitions below are a shallow embedding of
the model-lifecycle state machine, the websocket streaming protocol, the
prompt formatter and the generation bridge of that file.  External
collaborators (the HF tokenizer and model objects) are represented by
abstract handles (natural numbers) and by outcome records that say
whether each external call succeeds.
-/

namespace QwenBot

/-- String constants used by the embedding and the concrete test inputs. -/
def mA : String := "model-A"

def mB : String := "model-B"

def stallMsg : String := "streamer timeout"

def emptyStr : String := ""

def newline : String := "\n"

def imStart : String := "<|im_start|>"

def imEnd : String := "<|im_end|>"

def sysRole : String := "system"

def userRole : String := "user"

def asstRole : String := "assistant"

/-- Role-tagged chat message (class ChatMessage, app.py lines 68-70). -/
structure ChatMessage where
  role : String
  content : String
deriving DecidableEq, Repr

/-- The three module-level globals of app.py (lines 64-66): the resident
model handle, the tokenizer handle and the identity of the resident
model.  Handles for the external torch objects are abstracted as Nat. -/
structure ServerState where
  model : Option Nat
  tokenizer : Option Nat
  currentModelName : Option String
deriving DecidableEq, Repr

/-- Initial state of the process: all three globals are None. -/
def initialState : ServerState := ⟨none, none, none⟩

/-- Outcome record for the two external from_pretrained calls made by
load_model_dynamic: whether the tokenizer load succeeds, whether the
model load (including device placement) succeeds, and the fresh handles
produced on success. -/
structure LoadOutcome where
  tokOk : Bool
  modelOk : Bool
  newTok : Nat
  newModel : Nat
deriving DecidableEq, Repr

/-- Embedding of unload_model (app.py lines 104-138).  When a model is
resident, both the normal path and the exception path (the except arm at
lines 130-138, entered when some release step raises, indicated here by
the flag ce) end by resetting all three globals to None; when no model
is resident the function does nothing. -/
def unload_model (ce : Bool) (s : ServerState) : ServerState :=
  if s.model.isSome then
    if ce then ⟨none, none, none⟩ else ⟨none, none, none⟩
  else s

/-- Result of load_model_dynamic: the new global state, the returned
boolean, and instrumentation counting how many times the loading
sequence (the try block at lines 151-213) was executed and how many
actual unload releases happened. -/
structure DynResult where
  state : ServerState
  ok : Bool
  loads : Nat
  unloads : Nat
deriving DecidableEq, Repr

/-- Embedding of load_model_dynamic (app.py lines 140-217).  It unloads
first only when the requested name differs from the resident one (line
145), then always runs the loading sequence: the tokenizer is assigned
as soon as its from_pretrained succeeds (line 153), the model and the
current name are assigned only when the model load also succeeds (lines
162-203).  The except arm (lines 215-217) merely returns False and does
not touch the globals, so a failure after the tokenizer assignment
leaves the fresh tokenizer in place. -/
def load_model_dynamic (o : LoadOutcome) (name : String) (ce : Bool)
    (s : ServerState) : DynResult :=
  let s1 := if s.currentModelName = some name then s else unload_model ce s
  let u : Nat :=
    if s.currentModelName = some name then 0
    else if s.model.isSome then 1 else 0
  match o.tokOk, o.modelOk with
  | false, _ => ⟨s1, false, 1, u⟩
  | true, false => ⟨⟨s1.model, some o.newTok, s1.currentModelName⟩, false, 1, u⟩
  | true, true => ⟨⟨some o.newModel, some o.newTok, some name⟩, true, 1, u⟩

/-- Result of load_model: final state, whether it returned normally
(false means it raised HTTPException 500, line 229), and the load and
unload counts. -/
structure LMResult where
  state : ServerState
  ok : Bool
  loads : Nat
  unloads : Nat
deriving DecidableEq, Repr

/-- Embedding of load_model (app.py lines 219-231).  Cache hit when a
model is resident and its name equals the configured MODEL_NAME (line
223); otherwise it delegates to load_model_dynamic. -/
def load_model (o : LoadOutcome) (ce : Bool) (mn : String)
    (s : ServerState) : LMResult :=
  if s.model.isSome ∧ s.currentModelName = some mn then ⟨s, true, 0, 0⟩
  else
    let r := load_model_dynamic o mn ce s
    ⟨r.state, r.ok, r.loads, r.unloads⟩

/-- World seen by the config endpoint: the server globals plus the
persisted model_config.json content. -/
structure World where
  server : ServerState
  configFile : Option String
deriving DecidableEq, Repr

/-- Result of update_model_config: new world, whether the JSON response
had status success, the current_model field of that response, the load
and unload counts, and whether an HTTPException was raised. -/
structure UpdateResult where
  world : World
  ok : Bool
  reportedCurrent : Option String
  loads : Nat
  unloads : Nat
  httpError : Bool
deriving DecidableEq, Repr

/-- Embedding of update_model_config (app.py lines 360-394).  A missing
model name raises (lines 365-366); otherwise the new name is written to
model_config.json first (lines 369-371) and only then is
load_model_dynamic called (line 377), so the config file holds the new
name whether or not the switch succeeds.  On failure the response
reports the current_model_name global (line 389). -/
def update_model_config (o : LoadOutcome) (ce : Bool) (req : Option String)
    (w : World) : UpdateResult :=
  match req with
  | none => ⟨w, false, none, 0, 0, true⟩
  | some newModel =>
    let r := load_model_dynamic o newModel ce w.server
    if r.ok then
      ⟨⟨r.state, some newModel⟩, true, some newModel, r.loads, r.unloads, false⟩
    else
      ⟨⟨r.state, some newModel⟩, false, r.state.currentModelName, r.loads,
        r.unloads, false⟩

/-- Invariant of the reachable global states: whenever the model global
is None, the current_model_name global is None as well. -/
def stateInv (s : ServerState) : Prop :=
  s.model = none → s.currentModelName = none

/-- Result of the streaming branch of generate_response: the fragments
it yielded and whether thread.join() was reached. -/
structure StreamRun where
  fragments : List String
  joined : Bool
deriving DecidableEq, Repr

/-- Embedding of the streaming branch of generate_response (app.py
lines 291-309).  The worker thread is started, the loop yields every
truthy fragment the streamer produces (line 304), and thread.join()
at line 309 runs only when the loop finishes normally: when the
streamer raises (for example the 5 second per-fragment timeout), the
exception propagates out of the generator before the join, so the
worker thread is not joined on the failure path.  The argument chunks
is the list of fragments the streamer produced before finishing or
raising, and err is the exception message when it raised. -/
def generate_response_stream (chunks : List String) (err : Option String) :
    StreamRun :=
  match err with
  | none => ⟨chunks.filter (fun c => c != emptyStr), true⟩
  | some _ => ⟨chunks.filter (fun c => c != emptyStr), false⟩

/-- Wire events of the websocket streaming protocol (app.py lines
446-462): start, token with content, end, error with message. -/
inductive StreamEvent where
  | start : StreamEvent
  | token : String → StreamEvent
  | endEvent : StreamEvent
  | error : String → StreamEvent
deriving DecidableEq, Repr

/-- The terminal event of one cycle: end when the generator finished
normally, error with the exception text otherwise. -/
def terminalOf : Option String → StreamEvent
  | none => StreamEvent.endEvent
  | some e => StreamEvent.error e

/-- Embedding of one request-response cycle of websocket_endpoint
(app.py lines 446-462): it sends start (line 446), then one token event
per truthy fragment of generate_response (lines 449-454), then end
(line 456) when the generator finished, or error (lines 458-462) with
the exception message when it raised after producing chunks. -/
def websocket_cycle (chunks : List String) (err : Option String) :
    List StreamEvent :=
  StreamEvent.start ::
    (((generate_response_stream chunks err).fragments.filter
        (fun c => c != emptyStr)).map StreamEvent.token
      ++ [terminalOf err])

/-- Is the event a Token event. -/
def isToken : StreamEvent → Bool
  | StreamEvent.token _ => true
  | _ => false

/-- Is the event terminal (End or Error). -/
def isTerminal : StreamEvent → Bool
  | StreamEvent.endEvent => true
  | StreamEvent.error _ => true
  | _ => false

/-- Matcher for the word Token* (End | Error): zero or more Token
events followed by exactly one terminal event, nothing after it. -/
def tailOk : List StreamEvent → Bool
  | [StreamEvent.endEvent] => true
  | [StreamEvent.error _] => true
  | StreamEvent.token _ :: e :: rest => tailOk (e :: rest)
  | _ => false

/-- Matcher for the regular language Start Token* (End | Error). -/
def matchesProtocol : List StreamEvent → Bool
  | StreamEvent.start :: rest => tailOk rest
  | _ => false

/-- Embedding of the non-streaming branch of generate_response (app.py
lines 310-315): it decodes only the token span of outputs[0] after the
prompt length (line 314) and yields that single string.  The external
decode step (tokenizer.decode with skip_special_tokens) is an abstract
function argument. -/
def generate_response_nonstream (outputs : List Nat) (inputLen : Nat)
    (decode : List Nat → String) : List String :=
  [decode (outputs.drop inputLen)]

/-- Model of the Python str.strip method: remove leading and trailing
whitespace characters. -/
def pyStrip (s : String) : String :=
  String.mk (((s.data.dropWhile Char.isWhitespace).reverse.dropWhile
    Char.isWhitespace).reverse)

/-- Embedding of the accumulation in chat_completion (app.py lines
404-421): response_text starts empty, each fragment is appended, and
the returned message content is the accumulated text stripped of
leading and trailing whitespace (line 418). -/
def chat_completion_content (fragments : List String) : String :=
  pyStrip (fragments.foldl (fun acc c => acc ++ c) emptyStr)

/-- Embedding of the external HF tokenizer call with truncation=True
and a max_length cap: the token sequence is cut to at most maxLength
tokens, kept from one end. -/
def tokenize_with_truncation (rawTokens : List Nat) (maxLength : Nat) :
    List Nat :=
  rawTokens.take maxLength

/-- Embedding of the tokenization of the formatted prompt in
generate_response (app.py line 272): the raw tokenization of the prompt
is an abstract function, and the call passes truncation=True with
max_length=2048. -/
def generate_response_inputs (rawTokenize : String → List Nat)
    (prompt : String) : List Nat :=
  tokenize_with_truncation (rawTokenize prompt) 2048

/-- One step of the fallback formatting loop of format_messages_for_qwen
(app.py lines 249-256): a block is appended for the three known roles,
any other role leaves the accumulator unchanged. -/
def appendBlock (acc : List String) (msg : ChatMessage) : List String :=
  if msg.role = sysRole then
    acc ++ [imStart ++ sysRole ++ newline ++ msg.content ++ imEnd]
  else if msg.role = userRole then
    acc ++ [imStart ++ userRole ++ newline ++ msg.content ++ imEnd]
  else if msg.role = asstRole then
    acc ++ [imStart ++ asstRole ++ newline ++ msg.content ++ imEnd]
  else acc

/-- Embedding of the fallback path of format_messages_for_qwen (app.py
lines 248-259): one block per known-role message, the trailing open
assistant block appended (line 258), all joined with newlines (line
259). -/
def format_messages_fallback (messages : List ChatMessage) : String :=
  String.intercalate newline
    ((messages.foldl appendBlock []) ++ [imStart ++ asstRole ++ newline])

/-- A message has one of the three roles the fallback formatter knows. -/
def knownRole (m : ChatMessage) : Bool :=
  m.role == sysRole || m.role == userRole || m.role == asstRole

/-- The block the fallback formatter emits for a known-role message. -/
def roleBlock (m : ChatMessage) : String :=
  imStart ++ m.role ++ newline ++ m.content ++ imEnd

/-- Embedding of the pydantic request model ChatRequest (app.py lines
72-77).  Floats carry no arithmetic here, so temperature and top_p are
represented as rationals. -/
structure ChatRequest where
  messages : List ChatMessage
  max_tokens : Int
  temperature : Rat
  top_p : Rat
  stream : Bool
deriving DecidableEq, Repr

/-- Embedding of parsing a body into ChatRequest (app.py lines 72-77):
every absent optional field receives its default (2048, 0.7, 0.9,
False); any value of the declared type is accepted, there is no range
check on max_tokens, temperature or top_p. -/
def parse_chat_request (messages : List ChatMessage) (mt : Option Int)
    (tp : Option Rat) (pp : Option Rat) (st : Option Bool) : ChatRequest :=
  ⟨messages, mt.getD 2048, tp.getD (7 / 10), pp.getD (9 / 10), st.getD false⟩

/-- Embedding of the websocket parameter extraction (app.py lines
441-443): request_data.get with defaults 2048, 0.7 and 0.9, and no
validation of the received values. -/
def ws_params (mt : Option Int) (tp : Option Rat) (pp : Option Rat) :
    Int × Rat × Rat :=
  (mt.getD 2048, tp.getD (7 / 10), pp.getD (9 / 10))

/-- A fully successful pair of external loads, used as concrete input. -/
def okOutcome : LoadOutcome := ⟨true, true, 7, 8⟩

/-- A pair of external loads where already the tokenizer load raises. -/
def failOutcome : LoadOutcome := ⟨false, false, 5, 6⟩

/-- A pair where the tokenizer load succeeds and the model load raises. -/
def halfOutcome : LoadOutcome := ⟨true, false, 5, 6⟩

/-- A state with model-A resident. -/
def residentA : ServerState := ⟨some 0, some 1, some mA⟩

/-- A world with model-A resident and persisted as the default. -/
def wA : World := ⟨residentA, some mA⟩

/-- A whitespace-padded completion used as a concrete decode result. -/
def spacedCompletion : String := " hi "

/-- Helper: a word of Token events followed by one terminal event is
accepted by the tail matcher. -/
theorem tailOk_token_append (l : List String) (e : StreamEvent)
    (he : isTerminal e = true) :
    tailOk (l.map StreamEvent.token ++ [e]) = true := by
  induction l with
  | nil =>
    cases e with
    | endEvent => rfl
    | error m => rfl
    | start => simp [isTerminal] at he
    | token t => simp [isTerminal] at he
  | cons a as ih =>
    cases h : as.map StreamEvent.token ++ [e] with
    | nil => simp at h
    | cons b bs =>
      calc tailOk ((a :: as).map StreamEvent.token ++ [e])
          = tailOk (StreamEvent.token a :: (as.map StreamEvent.token ++ [e])) := by
            simp
        _ = tailOk (StreamEvent.token a :: b :: bs) := by rw [h]
        _ = tailOk (b :: bs) := rfl
        _ = tailOk (as.map StreamEvent.token ++ [e]) := by rw [← h]
        _ = true := ih

/-- Helper: Token events are never terminal. -/
theorem countP_terminal_map_token (l : List String) :
    (l.map StreamEvent.token).countP (fun e => isTerminal e) = 0 := by
  induction l with
  | nil => rfl
  | cons a as ih => simp [List.countP_cons, isTerminal, ih]

/-- Claim C1: for every streaming request cycle, the emitted event
sequence matches the regular language Start Token* (End | Error):
exactly one Start comes first, zero or more Token events follow in
production order, exactly one terminal event comes last and nothing is
emitted after it. -/
theorem c1_stream_protocol (chunks : List String) (err : Option String) :
    matchesProtocol (websocket_cycle chunks err) = true ∧
    (websocket_cycle chunks err).countP (fun e => isTerminal e) = 1 := by
  have ht : isTerminal (terminalOf err) = true := by cases err <;> rfl
  constructor
  · have hm : matchesProtocol (websocket_cycle chunks err)
        = tailOk (((generate_response_stream chunks err).fragments.filter
            (fun c => c != emptyStr)).map StreamEvent.token
          ++ [terminalOf err]) := rfl
    rw [hm]
    exact tailOk_token_append _ _ ht
  · have h0 : (((generate_response_stream chunks err).fragments.filter
        (fun c => c != emptyStr)).map StreamEvent.token).countP
        (fun e => isTerminal e) = 0 := countP_terminal_map_token _
    simp only [websocket_cycle, List.countP_cons, List.countP_append,
      List.countP_nil, h0]
    simp [isTerminal]
    cases err <;> rfl

/-- Claim C9 counterexample: when the streamer raises (for example the
per-fragment timeout elapses) before the loop finishes, the worker
thread is not joined before the Bridge call returns, refuting the claim
that the thread is joined on the failure path as well. -/
theorem c9_counterexample :
    (generate_response_stream [] (some stallMsg)).joined = false := rfl

/-- Claim C9, amended: the worker thread is joined before the Bridge
returns only on the success path; when the streamer raises, the
exception propagates out of generate_response before the join statement
is reached, so the worker thread is not joined on the failure path. -/
theorem c9_amended (chunks : List String) (msg : String) :
    (generate_response_stream chunks none).joined = true ∧
    (generate_response_stream chunks (some msg)).joined = false :=
  ⟨rfl, rfl⟩

/-- Helper: the empty string is a left identity of string append. -/
theorem emptyStr_append (s : String) : emptyStr ++ s = s := by
  cases s with
  | mk data => rfl

/-- Claim C5 counterexample: the non-streaming branch of
generate_response yields its single fragment without stripping
whitespace, so when the decoded completion carries surrounding spaces
the fragment yielded by the Bridge is not equal to the stripped
completion (the strip only happens later, in chat_completion). -/
theorem c5_counterexample :
    generate_response_nonstream [0, 1] 1 (fun _ => spacedCompletion)
      = [spacedCompletion] ∧
    pyStrip spacedCompletion ≠ spacedCompletion :=
  ⟨rfl, by decide⟩

/-- Claim C5, amended: the non-streaming Bridge yields exactly one
fragment, decoded only from the newly generated token span (the echoed
prompt tokens are excluded from the decode), and the single-shot
endpoint chat_completion returns that completion stripped of leading
and trailing whitespace. -/
theorem c5_amended (prompt gen : List Nat) (decode : List Nat → String) :
    generate_response_nonstream (prompt ++ gen) prompt.length decode
      = [decode gen] ∧
    chat_completion_content
        (generate_response_nonstream (prompt ++ gen) prompt.length decode)
      = pyStrip (decode gen) := by
  have hd : (prompt ++ gen).drop prompt.length = gen := by
    simp
  constructor
  · simp [generate_response_nonstream, hd]
  · simp [generate_response_nonstream, chat_completion_content, hd,
      emptyStr_append]

/-- Claim C6: the formatted prompt is tokenized with a hard cap of 2048
tokens (truncation from one end), so the tokenized input length never
exceeds 2048, in particular for prompts built by the fallback
formatter. -/
theorem c6_truncation_cap (rawTokenize : String → List Nat)
    (prompt : String) (messages : List ChatMessage) :
    (generate_response_inputs rawTokenize prompt).length ≤ 2048 ∧
    (generate_response_inputs rawTokenize
        (format_messages_fallback messages)).length ≤ 2048 := by
  refine ⟨?_, ?_⟩ <;>
    simp [generate_response_inputs, tokenize_with_truncation]

/-- Helper: the fallback formatting loop accumulates exactly one block
per known-role message, in order, and skips every other message. -/
theorem foldl_appendBlock_eq (l : List ChatMessage) (acc : List String) :
    l.foldl appendBlock acc = acc ++ (l.filter knownRole).map roleBlock := by
  induction l generalizing acc with
  | nil => simp
  | cons m ms ih =>
    rw [List.foldl_cons, ih]
    by_cases h1 : m.role = sysRole
    · simp [appendBlock, h1, knownRole, roleBlock, List.filter_cons,
        sysRole, userRole, asstRole]
    · by_cases h2 : m.role = userRole
      · simp [appendBlock, h1, h2, knownRole, roleBlock, List.filter_cons,
          sysRole, userRole, asstRole]
      · by_cases h3 : m.role = asstRole
        · simp [appendBlock, h1, h2, h3, knownRole, roleBlock,
            List.filter_cons, sysRole, userRole, asstRole]
        · simp [appendBlock, h1, h2, h3, knownRole, List.filter_cons]

/-- Claim C10: in the fallback formatting path, every message whose
role is not system, user or assistant is silently dropped and
contributes nothing to the formatted prompt, the relative order of the
remaining messages is preserved, and the trailing open assistant block
is still appended. -/
theorem c10_fallback_unknown_roles_dropped (messages : List ChatMessage) :
    format_messages_fallback messages
      = format_messages_fallback (messages.filter knownRole) ∧
    format_messages_fallback messages
      = String.intercalate newline
          (((messages.filter knownRole).map roleBlock)
            ++ [imStart ++ asstRole ++ newline]) := by
  have h1 := foldl_appendBlock_eq messages []
  have h2 := foldl_appendBlock_eq (messages.filter knownRole) []
  constructor
  · simp [format_messages_fallback, h1, h2, List.filter_filter]
  · simp [format_messages_fallback, h1]

/-- Claim C8 counterexample: a request carrying out-of-range values
(non-positive max_tokens, top_p above 1) is not rejected at the
boundary: parsing accepts it and the out-of-range values are carried
through unchanged. -/
theorem c8_counterexample :
    (parse_chat_request [] (some (-1)) none (some 2) none).max_tokens = -1 ∧
    ¬ (0 < (parse_chat_request [] (some (-1)) none (some 2)
        none).max_tokens) ∧
    (parse_chat_request [] (some (-1)) none (some 2) none).top_p = 2 ∧
    ¬ ((parse_chat_request [] (some (-1)) none (some 2) none).top_p ≤ 1) :=
  ⟨rfl, by decide, rfl, by decide⟩

/-- Claim C8, amended: defaults (2048, 0.7, 0.9, non-streaming) are
supplied for every absent parameter on both the single-shot path and
the websocket path, but the boundary performs no range validation:
whatever value of the declared type is supplied, including out-of-range
ones, is accepted and passed through to generation. -/
theorem c8_amended (msgs : List ChatMessage) (v : Int) (q r : Rat)
    (b : Bool) :
    parse_chat_request msgs none none none none
      = ⟨msgs, 2048, 7 / 10, 9 / 10, false⟩ ∧
    ws_params none none none = (2048, 7 / 10, 9 / 10) ∧
    (parse_chat_request msgs (some v) (some q) (some r)
        (some b)).max_tokens = v ∧
    (parse_chat_request msgs (some v) (some q) (some r)
        (some b)).temperature = q ∧
    (parse_chat_request msgs (some v) (some q) (some r) (some b)).top_p = r ∧
    (ws_params (some v) (some q) (some r)).1 = v :=
  ⟨rfl, rfl, rfl, rfl, rfl, rfl⟩

/-- Helper: the initial state satisfies the reachability invariant. -/
theorem stateInv_initial : stateInv initialState := fun _ => rfl

/-- Helper: unload_model preserves the reachability invariant. -/
theorem stateInv_unload (e : Bool) (s : ServerState) (h : stateInv s) :
    stateInv (unload_model e s) := by
  unfold stateInv unload_model
  by_cases hm : s.model.isSome
  · simp [hm]
  · simp [hm]
    exact h

/-- Helper: load_model_dynamic preserves the reachability invariant,
whatever the outcome of the external loads. -/
theorem stateInv_load_model_dynamic (o : LoadOutcome) (name : String)
    (ce : Bool) (s : ServerState) (h : stateInv s) :
    stateInv (load_model_dynamic o name ce s).state := by
  have hs1 : stateInv
      (if s.currentModelName = some name then s else unload_model ce s) := by
    by_cases hc : s.currentModelName = some name
    · simpa [hc] using h
    · simpa [hc] using stateInv_unload ce s h
  cases h1 : o.tokOk <;> cases h2 : o.modelOk <;>
    simp [load_model_dynamic, h1, h2, stateInv] <;>
    intro h0 <;> exact hs1 h0

/-- Claim C7: unload is a no-op when no model is resident, it swallows
partial-release errors while still forcing all three globals to None,
and after every unload call, whatever the internal error flag, the
current model identity is None.  The hypothesis is the invariant of the
reachable global states (model None implies name None), established for
the initial state and preserved by the lifecycle operations above. -/
theorem c7_unload_safe (s : ServerState) (e : Bool)
    (h : s.model = none → s.currentModelName = none) :
    (s.model = none → unload_model e s = s) ∧
    (unload_model e s).model = none ∧
    (unload_model e s).currentModelName = none := by
  by_cases hm : s.model.isSome
  · have hm2 : ¬ s.model = none := by
      intro h0
      rw [h0] at hm
      simp at hm
    exact ⟨fun h0 => absurd h0 hm2, by simp [unload_model, hm],
      by simp [unload_model, hm]⟩
  · have h0 : s.model = none := by
      cases hs : s.model
      · rfl
      · rw [hs] at hm
        simp at hm
    refine ⟨fun _ => ?_, ?_, ?_⟩ <;> simp [unload_model, hm, h0, h h0]

/-- Witness for C7 at a concrete resident state with the internal error
flag set. -/
theorem c7_unload_witness :
    (residentA.model = none → residentA.currentModelName = none) ∧
    (unload_model true residentA).model = none ∧
    (unload_model true residentA).currentModelName = none := by
  have h := c7_unload_safe residentA true (by decide)
  exact ⟨by decide, h.2.1, h.2.2⟩

/-- Claim C2, evaluated at the failing inputs: a failed
load_model_dynamic does not restore the globals.  When model-A is
already resident and a reload of model-A fails, current_model_name is
still model-A afterwards, not None; and when the tokenizer load
succeeds from the empty state but the model load fails, the freshly
assigned tokenizer stays visible with no model.  Both contradict the
claim that any failed load leaves current() at None with no partially
constructed state. -/
theorem c2_failed_load_state :
    ((load_model_dynamic failOutcome mA false residentA).ok = false ∧
      (load_model_dynamic failOutcome mA false
        residentA).state.currentModelName = some mA) ∧
    ((load_model_dynamic halfOutcome mB false initialState).ok = false ∧
      (load_model_dynamic halfOutcome mB false
        initialState).state.tokenizer = some 5 ∧
      (load_model_dynamic halfOutcome mB false
        initialState).state.model = none) := by
  decide

/-- Claim C3 counterexample: requesting residency of an already
resident identity through load_model_dynamic is not a no-op: it
performs zero unloads but one full (re)load of the already resident
model, refuting the zero-loads part of the claim. -/
theorem c3_counterexample :
    (load_model_dynamic okOutcome mA false residentA).loads = 1 ∧
    (load_model_dynamic okOutcome mA false residentA).unloads = 0 := by
  decide

/-- Claim C3, amended: ensureResident is idempotent through load_model:
starting from a state where the configured model is not resident, two
consecutive load_model calls perform exactly one load, the second being
a cache hit with zero loads and zero unloads; load_model_dynamic on an
already-resident identity performs zero unloads but does perform one
(re)load, since the cache-hit check lives only in load_model. -/
theorem c3_amended (s : ServerState) (o o2 : LoadOutcome)
    (ce ce2 ce3 : Bool) (name : String) (m t : Nat)
    (hT : o.tokOk = true) (hM : o.modelOk = true)
    (hFresh : s.currentModelName ≠ some name) :
    (load_model o ce name s).loads = 1 ∧
    (load_model o2 ce2 name (load_model o ce name s).state).loads = 0 ∧
    (load_model o2 ce2 name (load_model o ce name s).state).unloads = 0 ∧
    (load_model_dynamic o2 name ce3 ⟨some m, some t, some name⟩).unloads
      = 0 := by
  have hcache : ¬ (s.model.isSome ∧ s.currentModelName = some name) :=
    fun hc => hFresh hc.2
  have hstate : (load_model o ce name s).state
      = ⟨some o.newModel, some o.newTok, some name⟩ := by
    simp [load_model, hcache, load_model_dynamic, hT, hM]
  refine ⟨?_, ?_, ?_, ?_⟩
  · simp [load_model, hcache, load_model_dynamic, hT, hM]
  · rw [hstate]
    simp [load_model]
  · rw [hstate]
    simp [load_model]
  · cases h1 : o2.tokOk <;> cases h2 : o2.modelOk <;>
      simp [load_model_dynamic, h1, h2]

/-- Witness for C3 at concrete inputs: a successful fresh load followed
by a cache hit. -/
theorem c3_amended_witness :
    (okOutcome.tokOk = true ∧ okOutcome.modelOk = true ∧
      initialState.currentModelName ≠ some mA) ∧
    (load_model okOutcome false mA initialState).loads = 1 ∧
    (load_model okOutcome false mA
      (load_model okOutcome false mA initialState).state).loads = 0 ∧
    (load_model okOutcome false mA
      (load_model okOutcome false mA initialState).state).unloads = 0 := by
  have h := c3_amended initialState okOutcome okOutcome false false false
    mA 0 0 rfl rfl (by decide)
  exact ⟨⟨rfl, rfl, by decide⟩, h.1, h.2.1, h.2.2.1⟩

/-- Claim C4 counterexample: update_model_config persists the new
default identity before attempting the switch, so when the switch to
model-B fails the config file nevertheless records model-B, refuting
the claim that the new default is not recorded when the switch fails. -/
theorem c4_counterexample :
    (update_model_config failOutcome false (some mB) wA).ok = false ∧
    (update_model_config failOutcome false (some mB) wA).world.configFile
      = some mB := by
  decide

/-- Claim C4, amended: update_model_config durably records the new
default identity first and then performs the switch, so the config file
holds the new identity whether or not the switch succeeds; when model-A
is resident and the switch to a different model-B succeeds, exactly one
unload of A and one load of B occur and the current identity is model-B
afterwards. -/
theorem c4_amended (w : World) (o o2 : LoadOutcome) (ce ce2 : Bool)
    (a b : String) (mh th : Nat) (hab : a ≠ b)
    (hT : o.tokOk = true) (hM : o.modelOk = true)
    (hs : w.server = ⟨some mh, some th, some a⟩) :
    (update_model_config o ce (some b) w).unloads = 1 ∧
    (update_model_config o ce (some b) w).loads = 1 ∧
    (update_model_config o ce (some b) w).ok = true ∧
    (update_model_config o ce (some b)
      w).world.server.currentModelName = some b ∧
    (update_model_config o ce (some b) w).world.configFile = some b ∧
    (update_model_config o2 ce2 (some b) w).world.configFile = some b := by
  have hne : ¬ ((⟨some mh, some th, some a⟩ :
      ServerState).currentModelName = some b) := by
    intro hh
    exact hab (Option.some.inj hh)
  have hdyn : load_model_dynamic o b ce w.server
      = ⟨⟨some o.newModel, some o.newTok, some b⟩, true, 1, 1⟩ := by
    rw [hs]
    simp [load_model_dynamic, hT, hM, hne, unload_model]
  refine ⟨?_, ?_, ?_, ?_, ?_, ?_⟩
  · simp [update_model_config, hdyn]
  · simp [update_model_config, hdyn]
  · simp [update_model_config, hdyn]
  · simp [update_model_config, hdyn]
  · simp [update_model_config, hdyn]
  · by_cases hok : (load_model_dynamic o2 b ce2 w.server).ok = true <;>
      simp [update_model_config, hok]

/-- Witness for C4 at concrete inputs: a successful switch from
model-A to model-B. -/
theorem c4_amended_witness :
    (mA ≠ mB ∧ okOutcome.tokOk = true ∧ okOutcome.modelOk = true ∧
      wA.server = ⟨some 0, some 1, some mA⟩) ∧
    (update_model_config okOutcome false (some mB) wA).unloads = 1 ∧
    (update_model_config okOutcome false (some mB) wA).loads = 1 ∧
    (update_model_config okOutcome false (some mB)
      wA).world.server.currentModelName = some mB ∧
    (update_model_config okOutcome false (some mB) wA).world.configFile
      = some mB := by
  have h := c4_amended wA okOutcome okOutcome false false mA mB 0 1
    (by decide) rfl rfl rfl
  exact ⟨⟨by decide, rfl, rfl, rfl⟩, h.1, h.2.1, h.2.2.2.1, h.2.2.2.2.1⟩

end QwenBot
